import Mathlib

/-
  Verification development for the TikTok content-analysis repository.

  Shallow embedding of the frontend modules under src/frontend/src
  (services/api.ts, app/upload/page.tsx, app/videos/[id]/page.tsx,
  app/page.tsx) plus, where a claim concerns the backend pipeline that
  is not part of the source tree, definitions modelled from the
  specification (each such definition says so in its doc comment).

  All machine numbers of the original code are modelled as Nat / Int;
  JavaScript truthiness of strings and numbers is made explicit where
  the code relies on it.
-/

-- ============================================================
-- Upload page validation (src/frontend/src/app/upload/page.tsx,
-- handleFileSelect)
-- ============================================================

/-- Metadata of a browser File object as consulted by handleFileSelect:
the file name, the reported MIME type, and the size in bytes. -/
structure FileMeta where
  name : String
  mimeType : String
  size : Nat
deriving DecidableEq

/-- The MIME-type allow-list of handleFileSelect. -/
def allowedTypes : List String :=
  ["video/mp4", "video/mov", "video/avi", "video/mkv", "video/webm"]

/-- The five extensions accepted by the regex in handleFileSelect. -/
def allowedExtensions : List String :=
  [".mp4", ".mov", ".avi", ".mkv", ".webm"]

/-- The regex test of handleFileSelect: the name matches
the pattern dot-(mp4|mov|avi|mkv|webm)-end, case-insensitively;
the suffix test is spelled out on the character list so that it
evaluates inside the kernel. -/
def extensionMatches (name : String) : Bool :=
  allowedExtensions.any
    (fun e => (e.data.reverse).isPrefixOf ((name.data.map Char.toLower).reverse))

/-- JavaScript String.prototype.trim: whitespace stripped from both
ends, spelled out on the character list so that it evaluates inside
the kernel. -/
def jsTrim (s : String) : String :=
  ⟨((s.data.dropWhile Char.isWhitespace).reverse.dropWhile Char.isWhitespace).reverse⟩

/-- JavaScript string-or-default: s when s is truthy (non-empty),
otherwise the default. -/
def jsOrStr (s d : String) : String :=
  if s = "" then d else s

/-- Outcome of handleFileSelect: the two early-return error paths,
or acceptance of the file. -/
inductive SelectOutcome
  | rejectedType
  | rejectedSize
  | accepted
deriving DecidableEq

/-- The size ceiling of handleFileSelect: 500 MB in bytes. -/
def maxUploadBytes : Nat := 500 * 1024 * 1024

/-- handleFileSelect from app/upload/page.tsx: the file is rejected with a
type error when its MIME type is outside the allow-list AND its name does
not match the extension regex; otherwise it is rejected with a size error
when it exceeds 500 MB; otherwise it is accepted. No network request is
issued on any path. -/
def handleFileSelect (f : FileMeta) : SelectOutcome :=
  if f.mimeType ∉ allowedTypes ∧ extensionMatches f.name = false then
    SelectOutcome.rejectedType
  else if maxUploadBytes < f.size then
    SelectOutcome.rejectedSize
  else
    SelectOutcome.accepted

-- ============================================================
-- The VideoAnalysis shape (src/frontend/src/services/api.ts,
-- interface VideoAnalysis)
-- ============================================================

/-- general_info facet of VideoAnalysis (api.ts). -/
structure GeneralInfo where
  title : String
  category : String
  overall_sentiment : String
  target_audience : String
deriving DecidableEq

/-- content_analysis facet of VideoAnalysis (api.ts). -/
structure ContentAnalysis where
  main_objective : String
  key_message : String
  hook_strategy : String
deriving DecidableEq

/-- One element of script_breakdown (api.ts); start_seconds and
end_seconds are the optional fields of the interface. -/
structure ScriptSegment where
  segment_id : Int
  time_range : String
  start_seconds : Option Int
  end_seconds : Option Int
  visual_description : String
  camera_angle : String
  audio_transcript : String
  on_screen_text : String
  pacing : String
deriving DecidableEq

/-- technical_audit facet of VideoAnalysis (api.ts); video_quality and
transitions are the optional fields of the interface. -/
structure TechnicalAudit where
  editing_style : String
  sound_design : String
  cta_analysis : String
  video_quality : Option String
  transitions : Option String
deriving DecidableEq

/-- virality_factors facet of VideoAnalysis (api.ts); strengths and
weaknesses are the optional fields of the interface. -/
structure ViralityFactors where
  score : Int
  reasons : String
  improvement_suggestions : String
  strengths : Option (List String)
  weaknesses : Option (List String)
deriving DecidableEq

/-- VideoAnalysis (api.ts): the five mandatory top-level facets. -/
structure VideoAnalysis where
  general_info : GeneralInfo
  content_analysis : ContentAnalysis
  script_breakdown : List ScriptSegment
  technical_audit : TechnicalAudit
  virality_factors : ViralityFactors
deriving DecidableEq

/-- VideoAnalysisResponse (api.ts): the shape of the body returned by
GET /videos/id/analysis. -/
structure VideoAnalysisResponse where
  success : Bool
  video_id : String
  status : String
  has_analysis : Bool
  analysis : Option VideoAnalysis
  analyzed_at : Option String
  processing_time_ms : Option Int
  error : Option String
deriving DecidableEq

-- ============================================================
-- VideoRecord and the Orchestrator (modelled from the spec:
-- the backend is not under src/)
-- ============================================================

/-- The status enum of a VideoRecord (spec section 3). -/
inductive VStatus
  | pending
  | uploaded
  | processing
  | analyzed
  | failed
deriving DecidableEq

/-- Modelled from the spec: the persistent VideoRecord of section 3,
restricted to the fields the invariant speaks about (the backend that
owns this record is not part of the source tree). -/
structure VideoRecord where
  video_id : String
  status : VStatus
  analysis : Option VideoAnalysis
  analyzed_at : Option String
  processing_time_ms : Option Int
  error : Option String
deriving DecidableEq

/-- The invariant of spec section 3: analysis present iff analyzed,
error present iff failed. -/
def recordInvariant (r : VideoRecord) : Prop :=
  (r.analysis.isSome = true ↔ r.status = VStatus.analyzed) ∧
  (r.error.isSome = true ↔ r.status = VStatus.failed)

/-- Modelled from the spec: the record created by the Ingest Stage
(section 4.1), in state pending or uploaded, with no analysis and no
error. -/
def ingestRecord (vid : String) (up : Bool) : VideoRecord :=
  { video_id := vid
    status := if up then VStatus.uploaded else VStatus.pending
    analysis := none
    analyzed_at := none
    processing_time_ms := none
    error := none }

/-- Events of the Orchestrator state machine of spec section 4.4. -/
inductive OrchEvent
  | requestAnalysis
  | parseSuccess (a : VideoAnalysis) (ts : String) (ms : Int)
  | stageFailure (msg : String)

/-- Modelled from the spec: one Orchestrator transition (section 4.4).
An analysis request moves pending/uploaded to processing (guarded,
otherwise a no-op); parse success writes the analysis, stamps the
timing fields and moves processing to analyzed; a stage failure moves
any non-terminal status to failed and records the error message. -/
def orchStep (r : VideoRecord) (e : OrchEvent) : VideoRecord :=
  match e with
  | OrchEvent.requestAnalysis =>
      if r.status = VStatus.pending ∨ r.status = VStatus.uploaded then
        { r with status := VStatus.processing }
      else r
  | OrchEvent.parseSuccess a ts ms =>
      if r.status = VStatus.processing then
        { r with status := VStatus.analyzed
                 analysis := some a
                 analyzed_at := some ts
                 processing_time_ms := some ms }
      else r
  | OrchEvent.stageFailure msg =>
      if r.status ≠ VStatus.analyzed ∧ r.status ≠ VStatus.failed then
        { r with status := VStatus.failed, error := some msg }
      else r

/-- Records reachable from ingest by Orchestrator transitions. -/
inductive ReachableRecord : VideoRecord → Prop
  | ingest (vid : String) (up : Bool) : ReachableRecord (ingestRecord vid up)
  | step (r : VideoRecord) (e : OrchEvent) :
      ReachableRecord r → ReachableRecord (orchStep r e)

/-- The string form of a status, as serialized by the backend. -/
def statusString : VStatus → String
  | VStatus.pending => "pending"
  | VStatus.uploaded => "uploaded"
  | VStatus.processing => "processing"
  | VStatus.analyzed => "analyzed"
  | VStatus.failed => "failed"

/-- Modelled from the spec: the body of GET /videos/id/analysis
(section 6) serializing one VideoRecord. -/
def analysisEndpoint (r : VideoRecord) : VideoAnalysisResponse :=
  { success := true
    video_id := r.video_id
    status := statusString r.status
    has_analysis := r.analysis.isSome
    analysis := r.analysis
    analyzed_at := r.analyzed_at
    processing_time_ms := r.processing_time_ms
    error := r.error }

-- ============================================================
-- Result Parser (modelled from the spec: sections 4.3 and 6;
-- the backend parser is not under src/)
-- ============================================================

/-- Raw provider payload, general_info facet: every field may be
missing before validation. -/
structure RawGeneralInfo where
  title : Option String
  category : Option String
  overall_sentiment : Option String
  target_audience : Option String
deriving DecidableEq

/-- Raw provider payload, content_analysis facet. -/
structure RawContentAnalysis where
  main_objective : Option String
  key_message : Option String
  hook_strategy : Option String
deriving DecidableEq

/-- Raw provider payload, one script_breakdown segment. -/
structure RawSegment where
  segment_id : Option Int
  time_range : Option String
  start_seconds : Option Int
  end_seconds : Option Int
  visual_description : Option String
  camera_angle : Option String
  audio_transcript : Option String
  on_screen_text : Option String
  pacing : Option String
deriving DecidableEq

/-- Raw provider payload, technical_audit facet. -/
structure RawTechnicalAudit where
  editing_style : Option String
  sound_design : Option String
  cta_analysis : Option String
  video_quality : Option String
  transitions : Option String
deriving DecidableEq

/-- Raw provider payload, virality_factors facet. -/
structure RawViralityFactors where
  score : Option Int
  reasons : Option String
  improvement_suggestions : Option String
  strengths : Option (List String)
  weaknesses : Option (List String)
deriving DecidableEq

/-- Raw provider payload: each of the five top-level facets may be
missing before validation. -/
structure RawPayload where
  general_info : Option RawGeneralInfo
  content_analysis : Option RawContentAnalysis
  script_breakdown : Option (List RawSegment)
  technical_audit : Option RawTechnicalAudit
  virality_factors : Option RawViralityFactors
deriving DecidableEq

/-- Modelled from the spec: numeric coercion of section 4.3 — the
virality score is clamped into the interval 0..10, never rejected. -/
def clampScore (n : Int) : Int := max 0 (min 10 n)

/-- Modelled from the spec: validation of the general_info facet; all
four fields are mandatory. -/
def parseGeneralInfo (g : RawGeneralInfo) : Option GeneralInfo :=
  match g.title, g.category, g.overall_sentiment, g.target_audience with
  | some t, some c, some s, some a => some ⟨t, c, s, a⟩
  | _, _, _, _ => none

/-- Modelled from the spec: validation of the content_analysis facet;
all three fields are mandatory. -/
def parseContentAnalysis (c : RawContentAnalysis) : Option ContentAnalysis :=
  match c.main_objective, c.key_message, c.hook_strategy with
  | some o, some k, some h => some ⟨o, k, h⟩
  | _, _, _ => none

/-- Modelled from the spec: validation of one script segment;
start_seconds and end_seconds are optional and passed through, every
other field is mandatory. -/
def parseSegment (s : RawSegment) : Option ScriptSegment :=
  match s.segment_id, s.time_range, s.visual_description, s.camera_angle,
        s.audio_transcript, s.on_screen_text, s.pacing with
  | some sid, some tr, some vd, some ca, some au, some ot, some pc =>
      some ⟨sid, tr, s.start_seconds, s.end_seconds, vd, ca, au, ot, pc⟩
  | _, _, _, _, _, _, _ => none

/-- Modelled from the spec: validation of the whole segment list; a
single malformed segment rejects the list. -/
def parseSegments : List RawSegment → Option (List ScriptSegment)
  | [] => some []
  | s :: rest =>
    match parseSegment s, parseSegments rest with
    | some hd, some tl => some (hd :: tl)
    | _, _ => none

/-- Modelled from the spec: validation of the technical_audit facet;
video_quality and transitions are optional and passed through. -/
def parseTechnicalAudit (t : RawTechnicalAudit) : Option TechnicalAudit :=
  match t.editing_style, t.sound_design, t.cta_analysis with
  | some es, some sd, some ct => some ⟨es, sd, ct, t.video_quality, t.transitions⟩
  | _, _, _ => none

/-- Modelled from the spec: validation of the virality_factors facet;
the score is clamped into 0..10, strengths and weaknesses are optional
and passed through. -/
def parseViralityFactors (v : RawViralityFactors) : Option ViralityFactors :=
  match v.score, v.reasons, v.improvement_suggestions with
  | some sc, some rs, some im => some ⟨clampScore sc, rs, im, v.strengths, v.weaknesses⟩
  | _, _, _ => none

/-- Modelled from the spec: the Result Parser of section 4.3 — a
payload missing any of the five top-level facets, or any mandatory
sub-field, is rejected; optional sub-fields are passed through. -/
def parseVideoAnalysis (p : RawPayload) : Option VideoAnalysis :=
  match p.general_info, p.content_analysis, p.script_breakdown,
        p.technical_audit, p.virality_factors with
  | some gr, some cr, some sr, some tr, some vr =>
    match parseGeneralInfo gr, parseContentAnalysis cr, parseSegments sr,
          parseTechnicalAudit tr, parseViralityFactors vr with
    | some g, some c, some sb, some ta, some vf => some ⟨g, c, sb, ta, vf⟩
    | _, _, _, _, _ => none
  | _, _, _, _, _ => none

/-- Mandatory fields of a raw general_info facet. -/
def rawGeneralInfoMandatory (g : RawGeneralInfo) : Bool :=
  g.title.isSome && g.category.isSome &&
  g.overall_sentiment.isSome && g.target_audience.isSome

/-- Mandatory fields of a raw content_analysis facet. -/
def rawContentAnalysisMandatory (c : RawContentAnalysis) : Bool :=
  c.main_objective.isSome && c.key_message.isSome && c.hook_strategy.isSome

/-- Mandatory fields of a raw script segment: everything except
start_seconds and end_seconds. -/
def rawSegmentMandatory (s : RawSegment) : Bool :=
  s.segment_id.isSome && s.time_range.isSome && s.visual_description.isSome &&
  s.camera_angle.isSome && s.audio_transcript.isSome &&
  s.on_screen_text.isSome && s.pacing.isSome

/-- Mandatory fields of a raw technical_audit facet: everything except
video_quality and transitions. -/
def rawTechnicalAuditMandatory (t : RawTechnicalAudit) : Bool :=
  t.editing_style.isSome && t.sound_design.isSome && t.cta_analysis.isSome

/-- Mandatory fields of a raw virality_factors facet: everything except
strengths and weaknesses. -/
def rawViralityFactorsMandatory (v : RawViralityFactors) : Bool :=
  v.score.isSome && v.reasons.isSome && v.improvement_suggestions.isSome

/-- All five facets present with all their mandatory sub-fields; the
optional sub-fields (technical_audit.video_quality,
technical_audit.transitions, virality_factors.strengths,
virality_factors.weaknesses, per-segment start_seconds / end_seconds)
are not consulted. -/
def payloadMandatory (p : RawPayload) : Bool :=
  (match p.general_info with
   | some g => rawGeneralInfoMandatory g
   | none => false) &&
  (match p.content_analysis with
   | some c => rawContentAnalysisMandatory c
   | none => false) &&
  (match p.script_breakdown with
   | some l => l.all rawSegmentMandatory
   | none => false) &&
  (match p.technical_audit with
   | some t => rawTechnicalAuditMandatory t
   | none => false) &&
  (match p.virality_factors with
   | some v => rawViralityFactorsMandatory v
   | none => false)

/-- A well-formed five-facet sample payload whose raw score is n. -/
def sampleRawPayload (n : Int) : RawPayload :=
  { general_info := some
      { title := some "t", category := some "c"
        overall_sentiment := some "s", target_audience := some "a" }
    content_analysis := some
      { main_objective := some "o", key_message := some "k"
        hook_strategy := some "h" }
    script_breakdown := some []
    technical_audit := some
      { editing_style := some "e", sound_design := some "d"
        cta_analysis := some "x", video_quality := none, transitions := none }
    virality_factors := some
      { score := some n, reasons := some "r"
        improvement_suggestions := some "i"
        strengths := none, weaknesses := none } }

/-- The analysis the sample payload validates to. -/
def sampleParsed (n : Int) : VideoAnalysis :=
  { general_info := ⟨"t", "c", "s", "a"⟩
    content_analysis := ⟨"o", "k", "h"⟩
    script_breakdown := []
    technical_audit := ⟨"e", "d", "x", none, none⟩
    virality_factors := ⟨clampScore n, "r", "i", none, none⟩ }

-- ============================================================
-- Analysis page polling (src/frontend/src/app/videos/[id]/page.tsx,
-- fetchAnalysis inside the polling useEffect)
-- ============================================================

/-- One run of fetchAnalysis: either getVideoAnalysis resolved with a
response body, or the request itself threw. -/
inductive FetchOutcome
  | ok (r : VideoAnalysisResponse)
  | netError

/-- The observable effect of one run of fetchAnalysis: whether the
interval is cleared, the error string surfaced via setError, the
analysis stored via setAnalysis, the value passed to setLoading if it
is called, and the value passed to setStatus if it is called. -/
structure FetchEffect where
  stopPolling : Bool
  surfacedError : Option String
  storedAnalysis : Option VideoAnalysis
  loadingAfter : Option Bool
  statusAfter : Option String
deriving DecidableEq

/-- fetchAnalysis from app/videos/[id]/page.tsx. On a response: if it
carries has_analysis together with an analysis body, store the analysis
and clear the interval; else if status is failed, surface the error
string when it is truthy (present and non-empty, the or-operator of the
source) and otherwise the default message, and clear the interval; else if status
is processing, keep loading and keep polling; else do nothing and keep
polling. A thrown request surfaces the default network message and
clears the interval. -/
def fetchStep (o : FetchOutcome) : FetchEffect :=
  match o with
  | FetchOutcome.netError =>
      { stopPolling := true
        surfacedError := some "Không thể tải dữ liệu phân tích"
        storedAnalysis := none
        loadingAfter := some false
        statusAfter := none }
  | FetchOutcome.ok r =>
      if r.has_analysis && r.analysis.isSome then
        { stopPolling := true
          surfacedError := none
          storedAnalysis := r.analysis
          loadingAfter := some false
          statusAfter := some r.status }
      else if r.status = "failed" then
        { stopPolling := true
          surfacedError := some (jsOrStr (r.error.getD "") "Phân tích thất bại")
          storedAnalysis := none
          loadingAfter := some false
          statusAfter := some r.status }
      else if r.status = "processing" then
        { stopPolling := false
          surfacedError := none
          storedAnalysis := none
          loadingAfter := some true
          statusAfter := some r.status }
      else
        { stopPolling := false
          surfacedError := none
          storedAnalysis := none
          loadingAfter := none
          statusAfter := some r.status }

/-- The polling interval of the analysis page: setInterval with 3000
milliseconds. -/
def pollIntervalMs : Nat := 3000

/-- Whether the setInterval handle of the polling useEffect is live. -/
structure PollLifecycle where
  intervalActive : Bool
deriving DecidableEq

/-- The cleanup function returned by the polling useEffect: it clears
the interval unconditionally on unmount. -/
def unmountCleanup (_s : PollLifecycle) : PollLifecycle :=
  { intervalActive := false }

-- ============================================================
-- Upload handlers (src/frontend/src/app/upload/page.tsx,
-- handleUploadFile and handleDownloadUrl)
-- ============================================================

/-- VideoUploadResponse (api.ts): the body returned by
POST /videos/upload and POST /videos/url. size_mb is a number in the
source, modelled as Int. -/
structure VideoUploadResponse where
  success : Bool
  message : String
  video_id : Option String
  path : Option String
  filename : Option String
  size_mb : Option Int
  source : Option String
  platform : Option String
deriving DecidableEq

/-- Result of an awaited axios call: resolved value or thrown error
message. -/
inductive CallOutcome (α : Type)
  | ok (value : α)
  | err (msg : String)

/-- The observable effect of one run of handleUploadFile: the video_id
arguments of the analyzeVideo calls issued, the final status state of
the page, and the error state set. -/
structure HandlerRun where
  analyzeCalls : List String
  finalStatus : String
  errorSet : Option String
deriving DecidableEq

/-- handleUploadFile from app/upload/page.tsx, as a function of the
outcome of the awaited uploadVideo call and of the analyzeVideo call.
analyzeVideo is invoked exactly when the upload resolved with
success = true and a truthy (nonempty) video_id; every other outcome
throws, is caught, and puts the page in the error state. -/
def handleUploadFile (upload : CallOutcome VideoUploadResponse)
    (analyzeOutcome : String → CallOutcome Unit) : HandlerRun :=
  match upload with
  | CallOutcome.err m => { analyzeCalls := [], finalStatus := "error", errorSet := some m }
  | CallOutcome.ok r =>
    match r.video_id with
    | some v =>
      if r.success && !(v = "") then
        match analyzeOutcome v with
        | CallOutcome.ok _ =>
            { analyzeCalls := [v], finalStatus := "success", errorSet := none }
        | CallOutcome.err m =>
            { analyzeCalls := [v], finalStatus := "error", errorSet := some m }
      else
        { analyzeCalls := []
          finalStatus := "error"
          errorSet := some (jsOrStr r.message "Upload failed") }
    | none =>
        { analyzeCalls := []
          finalStatus := "error"
          errorSet := some (jsOrStr r.message "Upload failed") }

/-- The observable effect of one run of handleDownloadUrl: whether the
downloadFromUrl request was issued at all, plus the same fields as for
the file handler. -/
structure UrlHandlerRun where
  downloadIssued : Bool
  analyzeCalls : List String
  finalStatus : String
  errorSet : Option String
deriving DecidableEq

/-- handleDownloadUrl from app/upload/page.tsx: a blank (trimmed-empty)
URL sets an error and issues no request at all; otherwise the shape is
the same as handleUploadFile with the download-specific messages. -/
def handleDownloadUrl (url : String)
    (download : CallOutcome VideoUploadResponse)
    (analyzeOutcome : String → CallOutcome Unit) : UrlHandlerRun :=
  if jsTrim url = "" then
    { downloadIssued := false
      analyzeCalls := []
      finalStatus := "idle"
      errorSet := some "Vui lòng nhập link video" }
  else
    match download with
    | CallOutcome.err m =>
        { downloadIssued := true, analyzeCalls := []
          finalStatus := "error", errorSet := some m }
    | CallOutcome.ok r =>
      match r.video_id with
      | some v =>
        if r.success && !(v = "") then
          match analyzeOutcome v with
          | CallOutcome.ok _ =>
              { downloadIssued := true, analyzeCalls := [v]
                finalStatus := "success", errorSet := none }
          | CallOutcome.err m =>
              { downloadIssued := true, analyzeCalls := [v]
                finalStatus := "error", errorSet := some m }
        else
          { downloadIssued := true, analyzeCalls := []
            finalStatus := "error"
            errorSet := some (jsOrStr r.message "Download failed") }
      | none =>
          { downloadIssued := true, analyzeCalls := []
            finalStatus := "error"
            errorSet := some (jsOrStr r.message "Download failed") }

-- ============================================================
-- The two axios client configurations (src/frontend/src/services/api.ts
-- and the duplicated module embedded in src/frontend/src/app/page.tsx)
-- ============================================================

/-- The axios.create configuration fields both modules set. -/
structure AxiosConfig where
  baseURL : String
  timeoutMs : Nat
  contentTypeHeader : String
deriving DecidableEq

/-- Base-URL resolution of services/api.ts: the NEXT_PUBLIC_API_URL
environment value if truthy, else the localhost default. -/
def servicesResolveBaseURL (env : Option String) : String :=
  match env with
  | some u => if u = "" then "http://localhost:8000" else u
  | none => "http://localhost:8000"

/-- Base-URL resolution of the duplicated module in app/page.tsx;
textually the same expression as in services/api.ts. -/
def dashboardResolveBaseURL (env : Option String) : String :=
  match env with
  | some u => if u = "" then "http://localhost:8000" else u
  | none => "http://localhost:8000"

/-- The axios instance of services/api.ts: resolved base URL, a 300000
millisecond timeout, and the application/json content type header. -/
def servicesApiConfig (env : Option String) : AxiosConfig :=
  { baseURL := servicesResolveBaseURL env
    timeoutMs := 300000
    contentTypeHeader := "application/json" }

/-- The axios instance of the duplicated module in app/page.tsx:
resolved base URL, a 30000 millisecond timeout, and the
application/json content type header. -/
def dashboardApiConfig (env : Option String) : AxiosConfig :=
  { baseURL := dashboardResolveBaseURL env
    timeoutMs := 30000
    contentTypeHeader := "application/json" }

-- ============================================================
-- Upload progress reporting (src/frontend/src/services/api.ts,
-- uploadVideo onUploadProgress)
-- ============================================================

/-- The progress value computed by uploadVideo:
Math.round of (loaded / total) * 100, with real division and round
half up, the rounding of Math.round for nonnegative values. -/
def uploadProgress (loaded total : Nat) : ℤ :=
  round (((loaded : ℚ) / (total : ℚ)) * 100)

/-- The onUploadProgress handler of uploadVideo: the callback is
invoked with the rounded percentage exactly when the event total is
truthy (present and nonzero) and a callback was supplied; otherwise it
is not invoked (result none). -/
def uploadProgressEvent (total : Option Nat) (loaded : Nat)
    (hasCallback : Bool) : Option ℤ :=
  match total with
  | some t =>
      if t ≠ 0 ∧ hasCallback = true then some (uploadProgress loaded t) else none
  | none => none

-- ============================================================
-- Library page fetch routing (LibraryPage in
-- src/frontend/src/app/page.tsx, fetchVideos)
-- ============================================================

/-- The three filter states fetchVideos consults. -/
structure LibraryFilters where
  searchQuery : String
  categoryFilter : String
  minScore : Option Int
deriving DecidableEq

/-- JavaScript truthiness of the minScore state: a number that is not
zero (null and 0 are both falsy). -/
def jsTruthyNum (o : Option Int) : Bool :=
  match o with
  | some n => !(n = 0)
  | none => false

/-- Which endpoint fetchVideos calls, with the parameters it sends. -/
inductive FetchRoute
  | searchRoute (q : String) (category : Option String)
      (minViralScore : Option Int) (lim : Nat)
  | listRoute (skip : Nat) (lim : Nat)
deriving DecidableEq

/-- True on the search endpoint route. -/
def isSearchRoute : FetchRoute → Bool
  | FetchRoute.searchRoute _ _ _ _ => true
  | FetchRoute.listRoute _ _ => false

/-- The query parameter of a search route. -/
def routeQuery : FetchRoute → Option String
  | FetchRoute.searchRoute q _ _ _ => some q
  | FetchRoute.listRoute _ _ => none

/-- fetchVideos from LibraryPage in app/page.tsx: the search endpoint
is used when the trimmed query is non-empty, or the category filter is
set, or minScore is truthy; the query sent is searchQuery when truthy,
else the literal star; category and minViralScore are sent only when
truthy; otherwise the plain list endpoint is called with skip 0 and
limit 50. -/
def fetchVideosRoute (s : LibraryFilters) : FetchRoute :=
  if jsTrim s.searchQuery ≠ "" ∨ s.categoryFilter ≠ "" ∨ jsTruthyNum s.minScore = true then
    FetchRoute.searchRoute
      (if s.searchQuery = "" then "*" else s.searchQuery)
      (if s.categoryFilter = "" then none else some s.categoryFilter)
      (if jsTruthyNum s.minScore then s.minScore else none)
      50
  else
    FetchRoute.listRoute 0 50

-- ============================================================
-- searchVideos pagination defaulting (src/frontend/src/services/api.ts,
-- searchVideos)
-- ============================================================

/-- The optional options argument of searchVideos. -/
structure SearchOptions where
  category : Option String
  minViralScore : Option Int
  skip : Option Nat
  lim : Option Nat
deriving DecidableEq

/-- The query parameters searchVideos puts on the outgoing request. -/
structure SearchRequestParams where
  q : String
  category : Option String
  min_viral_score : Option Int
  skip : Nat
  lim : Nat
deriving DecidableEq

/-- JavaScript number-or-default: n when n is truthy (nonzero),
otherwise the default. -/
def jsOrNat (o : Option Nat) (d : Nat) : Nat :=
  match o with
  | some n => if n = 0 then d else n
  | none => d

/-- searchVideos from services/api.ts: category and minViralScore are
forwarded as given; skip defaults to 0 and limit defaults to 20 through
the JavaScript or-operator, so a falsy (absent or zero) value becomes
the default. -/
def searchVideosParams (query : String) (options : Option SearchOptions) :
    SearchRequestParams :=
  { q := query
    category := options.bind (fun o => o.category)
    min_viral_score := options.bind (fun o => o.minViralScore)
    skip := jsOrNat (options.bind (fun o => o.skip)) 0
    lim := jsOrNat (options.bind (fun o => o.lim)) 20 }

-- ============================================================
-- Theorems
-- ============================================================

/-- Claim C1, counterexample: the claim states that a file is rejected
iff its extension is disallowed or it is oversized, and that a .exe
file is always rejected; but a small file named video.exe whose
reported MIME type is video/mp4 is accepted by handleFileSelect, so
the stated iff fails at this input. -/
theorem C1_counterexample :
    ¬ ((handleFileSelect ⟨"video.exe", "video/mp4", 10⟩ ≠ SelectOutcome.accepted) ↔
        (extensionMatches "video.exe" = false ∨ maxUploadBytes < (10 : Nat))) := by
  decide

/-- Claim C1, amended: validation rejects a file iff (its MIME type is
outside the allow-list AND its name does not end with one of the five
allowed video extensions, case-insensitively) or its size exceeds
500 MB; no request is issued by the validation on any path. -/
theorem C1_file_validation (f : FileMeta) :
    handleFileSelect f ≠ SelectOutcome.accepted ↔
      ((f.mimeType ∉ allowedTypes ∧ extensionMatches f.name = false)
        ∨ maxUploadBytes < f.size) := by
  unfold handleFileSelect
  split
  · next h => exact iff_of_true (by simp) (Or.inl h)
  · next h =>
    split
    · next h2 => exact iff_of_true (by simp) (Or.inr h2)
    · next h2 =>
      refine iff_of_false (by simp) ?_
      rintro (hab | hs)
      · exact h hab
      · exact h2 hs

/-- Invariant conversion: the serialized status equals the literal
analyzed exactly for the analyzed status value. -/
theorem statusString_analyzed_iff (st : VStatus) :
    (statusString st = "analyzed") ↔ st = VStatus.analyzed := by
  cases st <;> decide

/-- Invariant conversion: the serialized status equals the literal
failed exactly for the failed status value. -/
theorem statusString_failed_iff (st : VStatus) :
    (statusString st = "failed") ↔ st = VStatus.failed := by
  cases st <;> decide

/-- Freshly ingested records satisfy the analysis/error invariant. -/
theorem recordInvariant_ingest (vid : String) (up : Bool) :
    recordInvariant (ingestRecord vid up) := by
  cases up <;> simp [recordInvariant, ingestRecord]

/-- Every Orchestrator transition preserves the analysis/error
invariant. -/
theorem recordInvariant_step (r : VideoRecord) (e : OrchEvent)
    (h : recordInvariant r) : recordInvariant (orchStep r e) := by
  obtain ⟨h1, h2⟩ := h
  rcases r with ⟨vid, st, an, ts, ms, er⟩
  cases e <;> cases st <;> simp_all [orchStep, recordInvariant]

/-- Claim C2: for every record reachable through ingest and the
Orchestrator, the analysis endpoint body has its analysis field present
iff the status is analyzed, and its error field present iff the status
is failed. -/
theorem C2_analysis_error_invariant (r : VideoRecord) (h : ReachableRecord r) :
    ((analysisEndpoint r).analysis.isSome = true ↔
        (analysisEndpoint r).status = "analyzed") ∧
    ((analysisEndpoint r).error.isSome = true ↔
        (analysisEndpoint r).status = "failed") := by
  have hinv : recordInvariant r := by
    induction h with
    | ingest vid up => exact recordInvariant_ingest vid up
    | step r e hr ih => exact recordInvariant_step r e ih
  obtain ⟨h1, h2⟩ := hinv
  constructor
  · simpa [analysisEndpoint, statusString_analyzed_iff] using h1
  · simpa [analysisEndpoint, statusString_failed_iff] using h2

/-- Witness for claim C2 at a concrete freshly uploaded record. -/
theorem C2_witness :
    ((analysisEndpoint (ingestRecord "vid1" true)).analysis.isSome = true ↔
        (analysisEndpoint (ingestRecord "vid1" true)).status = "analyzed") ∧
    ((analysisEndpoint (ingestRecord "vid1" true)).error.isSome = true ↔
        (analysisEndpoint (ingestRecord "vid1" true)).status = "failed") :=
  C2_analysis_error_invariant _ (ReachableRecord.ingest "vid1" true)

/-- The general_info facet validates exactly when its mandatory fields
are present. -/
theorem parseGeneralInfo_isSome (g : RawGeneralInfo) :
    (parseGeneralInfo g).isSome = rawGeneralInfoMandatory g := by
  rcases g with ⟨t, c, s, a⟩
  cases t <;> cases c <;> cases s <;> cases a <;>
    simp [parseGeneralInfo, rawGeneralInfoMandatory]

/-- The content_analysis facet validates exactly when its mandatory
fields are present. -/
theorem parseContentAnalysis_isSome (c : RawContentAnalysis) :
    (parseContentAnalysis c).isSome = rawContentAnalysisMandatory c := by
  rcases c with ⟨o, k, h⟩
  cases o <;> cases k <;> cases h <;>
    simp [parseContentAnalysis, rawContentAnalysisMandatory]

/-- A script segment validates exactly when its mandatory fields are
present; start_seconds and end_seconds are not consulted. -/
theorem parseSegment_isSome (s : RawSegment) :
    (parseSegment s).isSome = rawSegmentMandatory s := by
  rcases s with ⟨sid, tr, ss, es, vd, ca, au, ot, pc⟩
  cases sid <;> cases tr <;> cases vd <;> cases ca <;> cases au <;>
    cases ot <;> cases pc <;>
    simp [parseSegment, rawSegmentMandatory]

/-- The segment list validates exactly when every segment has its
mandatory fields. -/
theorem parseSegments_isSome (l : List RawSegment) :
    (parseSegments l).isSome = l.all rawSegmentMandatory := by
  induction l with
  | nil => simp [parseSegments]
  | cons s rest ih =>
    have hs := parseSegment_isSome s
    cases hps : parseSegment s <;> cases hpr : parseSegments rest <;>
      simp_all [parseSegments, List.all_cons]

/-- The technical_audit facet validates exactly when its mandatory
fields are present; video_quality and transitions are not consulted. -/
theorem parseTechnicalAudit_isSome (t : RawTechnicalAudit) :
    (parseTechnicalAudit t).isSome = rawTechnicalAuditMandatory t := by
  rcases t with ⟨es, sd, ct, vq, tr⟩
  cases es <;> cases sd <;> cases ct <;>
    simp [parseTechnicalAudit, rawTechnicalAuditMandatory]

/-- The virality_factors facet validates exactly when its mandatory
fields are present; strengths and weaknesses are not consulted. -/
theorem parseViralityFactors_isSome (v : RawViralityFactors) :
    (parseViralityFactors v).isSome = rawViralityFactorsMandatory v := by
  rcases v with ⟨sc, rs, im, st, wk⟩
  cases sc <;> cases rs <;> cases im <;>
    simp [parseViralityFactors, rawViralityFactorsMandatory]

/-- Claim C4: a payload validates exactly when all five top-level
facets are present with every mandatory sub-field; in particular a
payload missing any of the five facets is rejected, and the predicate
payloadMandatory never consults the optional sub-fields. -/
theorem C4_five_facets :
    (∀ p : RawPayload, (parseVideoAnalysis p).isSome = payloadMandatory p) ∧
    (∀ p : RawPayload,
      (p.general_info = none ∨ p.content_analysis = none ∨
       p.script_breakdown = none ∨ p.technical_audit = none ∨
       p.virality_factors = none) → parseVideoAnalysis p = none) := by
  have main : ∀ p : RawPayload, (parseVideoAnalysis p).isSome = payloadMandatory p := by
    intro p
    rcases p with ⟨g, c, s, t, v⟩
    cases g <;> cases c <;> cases s <;> cases t <;> cases v <;>
      simp_all [parseVideoAnalysis, payloadMandatory]
    next g c s t v =>
      rw [← parseGeneralInfo_isSome, ← parseContentAnalysis_isSome,
          ← parseSegments_isSome, ← parseTechnicalAudit_isSome,
          ← parseViralityFactors_isSome]
      cases parseGeneralInfo g <;> cases parseContentAnalysis c <;>
        cases parseSegments s <;> cases parseTechnicalAudit t <;>
        cases parseViralityFactors v <;> simp [parseVideoAnalysis]
  refine ⟨main, ?_⟩
  intro p hmiss
  rcases p with ⟨g, c, s, t, v⟩
  rcases hmiss with h | h | h | h | h <;> subst h <;>
    cases hp : parseVideoAnalysis _ <;> simp_all [parseVideoAnalysis]

/-- Witness for claim C4: the sample payload with its general_info
facet removed is rejected. -/
theorem C4_witness :
    parseVideoAnalysis { sampleRawPayload 5 with general_info := none } = none :=
  C4_five_facets.2 _ (Or.inl rfl)

/-- A validated virality_factors facet always carries a clamped score. -/
theorem parseViralityFactors_score_bounds (v : RawViralityFactors)
    (w : ViralityFactors) (h : parseViralityFactors v = some w) :
    0 ≤ w.score ∧ w.score ≤ 10 := by
  rcases v with ⟨sc, rs, im, st, wk⟩
  cases sc <;> cases rs <;> cases im <;>
    simp_all [parseViralityFactors]
  subst h
  refine ⟨le_max_left 0 _, ?_⟩
  exact max_le (by norm_num) (min_le_left 10 _)

/-- Claim C3: every analysis validated from a well-formed five-facet
payload has its virality score inside the interval 0..10, because an
out-of-range score is clamped rather than rejected; concretely, the
sample payload with raw score 12 validates, and its stored score is
10. -/
theorem C3_score_clamped :
    (∀ (p : RawPayload) (a : VideoAnalysis), parseVideoAnalysis p = some a →
        0 ≤ a.virality_factors.score ∧ a.virality_factors.score ≤ 10) ∧
    parseVideoAnalysis (sampleRawPayload 12) = some (sampleParsed 12) ∧
    (sampleParsed 12).virality_factors.score = 10 := by
  refine ⟨?_, by decide, by decide⟩
  intro p a h
  rcases p with ⟨g, c, s, t, v⟩
  cases g <;> cases c <;> cases s <;> cases t <;> cases v <;>
    simp_all [parseVideoAnalysis]
  next g c s t v =>
    split at h
    · rename_i g2 c2 s2 t2 v2 hg hc hs ht hv
      cases h
      have hb := parseViralityFactors_score_bounds v v2 hv
      simpa using hb
    · exact absurd h (by simp)

/-- Witness for claim C3: the bounds instantiated at the sample payload
with raw score 12. -/
theorem C3_witness :
    0 ≤ (sampleParsed 12).virality_factors.score ∧
    (sampleParsed 12).virality_factors.score ≤ 10 :=
  C3_score_clamped.1 (sampleRawPayload 12) (sampleParsed 12) C3_score_clamped.2.1

/-- Claim C5, counterexample: the claim states that a response with
status processing never stops the polling; but a response with status
processing that also carries has_analysis together with an analysis
body takes the first branch of fetchAnalysis and clears the interval. -/
theorem C5_counterexample :
    (fetchStep (FetchOutcome.ok
      { success := true, video_id := "v", status := "processing"
        has_analysis := true, analysis := some (sampleParsed 7)
        analyzed_at := none, processing_time_ms := none
        error := none })).stopPolling = true := by
  decide

/-- Claim C5, amended: fetchAnalysis stops the 3000 millisecond polling
exactly when the response carries has_analysis with an analysis body,
or reports status failed (surfacing the error string from the response
when it is non-empty, otherwise the default message), or the request
itself errors (surfacing the
default network message); a response with status processing that does
not carry an analysis body never stops the polling, and the unmount
cleanup always clears the interval. -/
theorem C5_polling (r : VideoAnalysisResponse) :
    ((fetchStep (FetchOutcome.ok r)).stopPolling = true ↔
        ((r.has_analysis && r.analysis.isSome) = true ∨ r.status = "failed")) ∧
    (fetchStep FetchOutcome.netError).stopPolling = true ∧
    (fetchStep FetchOutcome.netError).surfacedError =
        some "Không thể tải dữ liệu phân tích" ∧
    ((r.has_analysis && r.analysis.isSome) = false → r.status = "failed" →
        (fetchStep (FetchOutcome.ok r)).surfacedError =
          some (jsOrStr (r.error.getD "") "Phân tích thất bại")) ∧
    ((r.has_analysis && r.analysis.isSome) = false → r.status = "processing" →
        (fetchStep (FetchOutcome.ok r)).stopPolling = false) ∧
    pollIntervalMs = 3000 ∧
    (∀ s : PollLifecycle, (unmountCleanup s).intervalActive = false) := by
  refine ⟨?_, rfl, rfl, ?_, ?_, rfl, fun s => rfl⟩
  · by_cases h1 : (r.has_analysis && r.analysis.isSome) = true
    · simp [fetchStep, h1]
    · by_cases h2 : r.status = "failed"
      · simp [fetchStep, h1, h2]
      · by_cases h3 : r.status = "processing" <;>
          simp [fetchStep, h1, h2, h3]
  · intro h1 h2
    simp [fetchStep, h1, h2]
  · intro h1 h2
    have h3 : r.status ≠ "failed" := by
      rw [h2]; decide
    simp [fetchStep, h1, h2, h3]

/-- Witness for claim C5 at a concrete failed response. -/
theorem C5_witness :
    (fetchStep (FetchOutcome.ok
      { success := true, video_id := "v", status := "failed"
        has_analysis := false, analysis := none
        analyzed_at := none, processing_time_ms := none
        error := some "boom" })).surfacedError = some "boom" := by
  have h := (C5_polling
    { success := true, video_id := "v", status := "failed"
      has_analysis := false, analysis := none
      analyzed_at := none, processing_time_ms := none
      error := some "boom" }).2.2.2.1 (by decide) rfl
  simpa [jsOrStr] using h

/-- Claim C6, counterexample: the claim states that a successful upload
response carrying a video_id always leads to exactly one analyze call
with that id; but a response with success true and the empty-string
video_id is falsy in the guard, so no analyze call is issued and the
page enters the error state. -/
theorem C6_counterexample :
    (handleUploadFile
      (CallOutcome.ok
        { success := true, message := "msg", video_id := some ""
          path := none, filename := none, size_mb := none
          source := none, platform := none })
      (fun _ => CallOutcome.ok ())).analyzeCalls = [] ∧
    (handleUploadFile
      (CallOutcome.ok
        { success := true, message := "msg", video_id := some ""
          path := none, filename := none, size_mb := none
          source := none, platform := none })
      (fun _ => CallOutcome.ok ())).finalStatus = "error" := by
  constructor <;> rfl

/-- Claim C6, amended: for both the file-upload and the URL handler,
the analyze request is issued exactly once with the returned video_id
when the upload or download call resolved with success true and a
nonempty video_id; on a thrown call, a success false response, a
missing video_id or an empty-string video_id, no analyze request is
issued and the page enters the error state; a blank URL issues no
request at all. -/
theorem C6_analyze_once (r : VideoUploadResponse) (v : String)
    (ao : String → CallOutcome Unit) (m : String) (url : String) :
    ((handleUploadFile (CallOutcome.err m) ao).analyzeCalls = [] ∧
      (handleUploadFile (CallOutcome.err m) ao).finalStatus = "error") ∧
    (r.success = true → r.video_id = some v → v ≠ "" →
      (handleUploadFile (CallOutcome.ok r) ao).analyzeCalls = [v]) ∧
    ((r.success = false ∨ r.video_id = none ∨ r.video_id = some "") →
      (handleUploadFile (CallOutcome.ok r) ao).analyzeCalls = [] ∧
      (handleUploadFile (CallOutcome.ok r) ao).finalStatus = "error") ∧
    (jsTrim url = "" →
      (handleDownloadUrl url (CallOutcome.ok r) ao).downloadIssued = false ∧
      (handleDownloadUrl url (CallOutcome.ok r) ao).analyzeCalls = []) ∧
    (jsTrim url ≠ "" → r.success = true → r.video_id = some v → v ≠ "" →
      (handleDownloadUrl url (CallOutcome.ok r) ao).analyzeCalls = [v]) ∧
    (jsTrim url ≠ "" → (r.success = false ∨ r.video_id = none ∨ r.video_id = some "") →
      (handleDownloadUrl url (CallOutcome.ok r) ao).analyzeCalls = [] ∧
      (handleDownloadUrl url (CallOutcome.ok r) ao).finalStatus = "error") ∧
    (handleDownloadUrl url (CallOutcome.err m) ao).analyzeCalls = [] := by
  refine ⟨⟨rfl, rfl⟩, ?_, ?_, ?_, ?_, ?_, ?_⟩
  · intro hs hv hne
    cases hao : ao v <;>
      simp [handleUploadFile, hv, hs, hne, hao]
  · intro hbad
    rcases hbad with hs | hv | hv
    · rcases hvid : r.video_id with _ | v2 <;>
        simp [handleUploadFile, hvid, hs]
    · simp [handleUploadFile, hv]
    · simp [handleUploadFile, hv]
  · intro hurl
    simp [handleDownloadUrl, hurl]
  · intro hurl hs hv hne
    cases hao : ao v <;>
      simp [handleDownloadUrl, hurl, hv, hs, hne, hao]
  · intro hurl hbad
    rcases hbad with hs | hv | hv
    · rcases hvid : r.video_id with _ | v2 <;>
        simp [handleDownloadUrl, hurl, hvid, hs]
    · simp [handleDownloadUrl, hurl, hv]
    · simp [handleDownloadUrl, hurl, hv]
  · by_cases hurl : jsTrim url = "" <;> simp [handleDownloadUrl, hurl]

/-- Witness for claim C6 at a concrete successful upload response. -/
theorem C6_witness :
    (handleUploadFile
      (CallOutcome.ok
        { success := true, message := "msg", video_id := some "vid9"
          path := none, filename := none, size_mb := none
          source := none, platform := none })
      (fun _ => CallOutcome.ok ())).analyzeCalls = ["vid9"] :=
  (C6_analyze_once
    { success := true, message := "msg", video_id := some "vid9"
      path := none, filename := none, size_mb := none
      source := none, platform := none }
    "vid9" (fun _ => CallOutcome.ok ()) "m" "u").2.1 rfl rfl (by decide)

/-- Claim C7, counterexample: the two axios clients do not apply the
same request timeout — services/api.ts sets 300000 milliseconds while
the duplicated module in app/page.tsx sets 30000 milliseconds. -/
theorem C7_counterexample :
    (servicesApiConfig none).timeoutMs ≠ (dashboardApiConfig none).timeoutMs := by
  decide

/-- Claim C7, amended: the two axios clients resolve the same base URL
from the same environment value and set the same default content type
header, but their request timeouts differ: 300000 milliseconds in
services/api.ts against 30000 milliseconds in the duplicated module. -/
theorem C7_api_equivalence (env : Option String) :
    (servicesApiConfig env).baseURL = (dashboardApiConfig env).baseURL ∧
    (servicesApiConfig env).contentTypeHeader =
        (dashboardApiConfig env).contentTypeHeader ∧
    (servicesApiConfig env).timeoutMs = 300000 ∧
    (dashboardApiConfig env).timeoutMs = 30000 := by
  refine ⟨?_, rfl, rfl, rfl⟩
  rcases env with _ | u
  · rfl
  · rfl

/-- Truthiness of the minScore filter matches a nonzero stored
number. -/
theorem jsTruthyNum_iff (o : Option Int) :
    jsTruthyNum o = true ↔ ∃ n : Int, o = some n ∧ n ≠ 0 := by
  rcases o with _ | n <;> simp [jsTruthyNum]

/-- Claim C8: the progress callback of uploadVideo is invoked with the
rounded percentage exactly when the event total is truthy and a
callback is supplied; with no total or no callback nothing is invoked;
and whenever loaded is at most total the reported value lies between 0
and 100. -/
theorem C8_progress :
    (∀ (t l : Nat), t ≠ 0 →
        uploadProgressEvent (some t) l true = some (uploadProgress l t)) ∧
    (∀ (l : Nat) (b : Bool), uploadProgressEvent none l b = none) ∧
    (∀ (t l : Nat), uploadProgressEvent (some t) l false = none) ∧
    (∀ (l : Nat) (b : Bool), uploadProgressEvent (some 0) l b = none) ∧
    (∀ (t l : Nat), l ≤ t → t ≠ 0 →
        0 ≤ uploadProgress l t ∧ uploadProgress l t ≤ 100) := by
  refine ⟨?_, ?_, ?_, ?_, ?_⟩
  · intro t l ht
    simp [uploadProgressEvent, ht]
  · intro l b
    rfl
  · intro t l
    simp [uploadProgressEvent]
  · intro l b
    simp [uploadProgressEvent]
  · intro t l hl ht
    unfold uploadProgress
    have htq : (0 : ℚ) < (t : ℚ) := by exact_mod_cast Nat.pos_of_ne_zero ht
    have hq0 : (0 : ℚ) ≤ (l : ℚ) / (t : ℚ) * 100 := by positivity
    have hq1 : (l : ℚ) / (t : ℚ) ≤ 1 := by
      rw [div_le_one htq]
      exact_mod_cast hl
    have hq100 : (l : ℚ) / (t : ℚ) * 100 ≤ 100 := by nlinarith
    constructor
    · rw [round_eq]
      apply Int.le_floor.mpr
      push_cast
      linarith
    · rw [round_eq]
      have hlt : ⌊(l : ℚ) / (t : ℚ) * 100 + 1 / 2⌋ < 101 := by
        apply Int.floor_lt.mpr
        push_cast
        linarith
      omega

/-- Witness for claim C8 at one quarter uploaded. -/
theorem C8_witness :
    uploadProgressEvent (some 4) 1 true = some (uploadProgress 1 4) ∧
    (0 ≤ uploadProgress 1 4 ∧ uploadProgress 1 4 ≤ 100) :=
  ⟨C8_progress.1 4 1 (by decide), C8_progress.2.2.2.2 4 1 (by decide) (by decide)⟩

/-- Claim C9: the library page takes the search route exactly when the
trimmed query is non-empty, the category filter is set, or the minimum
score filter is a nonzero number; a minimum score of zero behaves like
no score filter; and a search taken with the empty query sends the
literal star as its query parameter. -/
theorem C9_library_routing (s : LibraryFilters) :
    (isSearchRoute (fetchVideosRoute s) = true ↔
        (jsTrim s.searchQuery ≠ "" ∨ s.categoryFilter ≠ "" ∨
          (∃ n : Int, s.minScore = some n ∧ n ≠ 0))) ∧
    (fetchVideosRoute { s with minScore := some 0 } =
        fetchVideosRoute { s with minScore := none }) ∧
    (s.searchQuery = "" → isSearchRoute (fetchVideosRoute s) = true →
        routeQuery (fetchVideosRoute s) = some "*") := by
  refine ⟨?_, ?_, ?_⟩
  · rw [← jsTruthyNum_iff]
    unfold fetchVideosRoute
    split
    · next h => exact iff_of_true rfl h
    · next h => exact iff_of_false (by simp [isSearchRoute]) h
  · simp [fetchVideosRoute, jsTruthyNum]
  · intro hq hroute
    have h0 : jsTrim "" = "" := by decide
    rcases s with ⟨q, c, m⟩
    dsimp at hq
    subst hq
    by_cases hcond : (c ≠ "" ∨ jsTruthyNum m = true)
    · simp [fetchVideosRoute, h0, hcond, routeQuery]
    · simp [fetchVideosRoute, h0, hcond, isSearchRoute] at hroute

/-- Witness for claim C9: an empty query with a category filter routes
through search with the star query. -/
theorem C9_witness :
    routeQuery (fetchVideosRoute ⟨"", "Tutorial", none⟩) = some "*" :=
  (C9_library_routing ⟨"", "Tutorial", none⟩).2.2 rfl (by decide)

/-- Claim C10: searchVideos fills omitted pagination with skip 0 and
limit 20; an explicit limit of 0 is sent as 20 because the defaulting
is by falsiness, while an explicit skip of 0 (and any other skip) is
sent unchanged. -/
theorem C10_search_defaults (query : String) (c : Option String)
    (m : Option Int) (sk l : Option Nat) (n : Nat) :
    ((searchVideosParams query none).skip = 0) ∧
    ((searchVideosParams query none).lim = 20) ∧
    ((searchVideosParams query (some ⟨c, m, none, none⟩)).skip = 0) ∧
    ((searchVideosParams query (some ⟨c, m, none, none⟩)).lim = 20) ∧
    ((searchVideosParams query (some ⟨c, m, sk, some 0⟩)).lim = 20) ∧
    ((searchVideosParams query (some ⟨c, m, some 0, l⟩)).skip = 0) ∧
    ((searchVideosParams query (some ⟨c, m, some n, l⟩)).skip = n) := by
  refine ⟨rfl, rfl, rfl, rfl, rfl, rfl, ?_⟩
  by_cases hn : n = 0 <;> simp [searchVideosParams, jsOrNat, hn]
